import Mathlib

/-!
Verification of the chutes-skyrimnet gateway/proxy subsystem.

Shallow embedding of the route-manifest merge, passthrough-route
exclusion filter, readiness wait, JSON-to-multipart translation,
upstream status remapping, and per-request siloing, translated from
`deploy_xtts_whisper.py` and `tools/chute_wrappers.py`.
-/

set_option maxRecDepth 4096

/-- Left and right curly-brace characters, written via their code points. -/
def braceL : Char := Char.ofNat 123

/-- Right curly-brace character. -/
def braceR : Char := Char.ofNat 125

/-- Python `s.rstrip("/")`: remove all trailing slash characters. -/
def rstripSlash (s : String) : String :=
  String.mk ((s.data.reverse.dropWhile (fun c => c = '/')).reverse)

/-- Python `s.startswith(p)`, over the character list. -/
def strStartsWith (s p : String) : Bool := p.data.isPrefixOf s.data

/-- Python `s.endswith(p)`, over the character list. -/
def strEndsWith (s p : String) : Bool := p.data.isSuffixOf s.data

/-- Python `c in s` for a single-character needle, over the character
list. -/
def strContains (s : String) (c : Char) : Bool := s.data.contains c

/-- Python `s.upper()`, over the character list. -/
def strToUpper (s : String) : String := String.mk (s.data.map Char.toUpper)

/-- Remove the last `n` characters, as Python slicing `s[:-n]` or
`rsplit` of a known suffix does. -/
def strDropRight (s : String) (n : Nat) : String :=
  String.mk (s.data.take (s.data.length - n))

/- ----------------------------------------------------------------------
   Middleware `add_user_id_to_context` (deploy_xtts_whisper.py:109-126).
   The FastAPI context variable `_user_id_context` is modelled as explicit
   state: the middleware receives the prior value, sets the per-request
   value, runs the downstream handler, and resets in a `finally`.
---------------------------------------------------------------------- -/

/-- Extraction of the caller identifier: `request.query_params.get("silo_id")`,
falling back (when absent or empty, Python falsiness) to
`request.headers.get("X-Silo-ID", "default")`. -/
def extractUserId (querySiloId headerSiloId : Option String) : String :=
  match querySiloId with
  | some s => if s = "" then headerSiloId.getD "default" else s
  | none => headerSiloId.getD "default"

/-- Middleware `add_user_id_to_context`: `ctx0` is the context-variable value
on entry; `callNext` receives the normalized path and the context value set
for this request, and returns the handler outcome (normal response or raised
error) together with the context value as the handler left it.  The `token`
returned by `ContextVar.set` captures `ctx0`; the `finally` block resets the
context variable to the token's value on both the normal and the raising
path.  The result pairs the outcome with the context value after exit. -/
def addUserIdToContext (ctx0 : String) (path : String)
    (querySiloId headerSiloId : Option String)
    (callNext : String → String → Except String String × String) :
    Except String String × String :=
  let userId := extractUserId querySiloId headerSiloId
  let token := ctx0
  let path2 := if path ≠ "/" ∧ strEndsWith path "/" = true then rstripSlash path else path
  match callNext path2 userId with
  | (Except.ok v, _) => (Except.ok v, token)
  | (Except.error e, _) => (Except.error e, token)

/- ----------------------------------------------------------------------
   Siloing rewrite applied by `_proxy_post_multipart` (lines 232-242) and
   `_proxy_post_json` (lines 275-282) of deploy_xtts_whisper.py.
---------------------------------------------------------------------- -/

/-- Payload view for the siloing rewrite: the two fields the proxies touch,
plus the untouched remainder of the JSON payload. -/
structure Payload where
  speaker_name : Option String
  speaker_wav : Option String
  other : List (String × String)
  deriving DecidableEq, Repr

/-- Siloing rewrite shared by `_proxy_post_multipart` and `_proxy_post_json`:
`speaker_name`, when present, is replaced by `f"{user_silo}_{...}"`;
`speaker_wav`, when present, is prefixed only if it does not start with
`"/"` and does not contain `"|"`. -/
def siloPayload (user_silo : String) (payload : Payload) : Payload :=
  let p1 :=
    match payload.speaker_name with
    | some v => { payload with speaker_name := some (user_silo ++ "_" ++ v) }
    | none => payload
  match p1.speaker_wav with
  | some v =>
    if !(strStartsWith v "/") && !(strContains v '|') then
      { p1 with speaker_wav := some (user_silo ++ "_" ++ v) }
    else p1
  | none => p1

/- ----------------------------------------------------------------------
   Route exclusion filter `_should_skip_route` (chute_wrappers.py:334-361).
---------------------------------------------------------------------- -/

/-- The fixed internal-UI prefix list `_SKIP_PATH_PREFIXES`. -/
def SKIP_PATH_PREFIXES : List String :=
  ["/static", "/assets", "/svelte", "/login", "/logout", "/gradio_api", "/theme", "/__"]

/-- The exact-path skip set `_SKIP_PATHS_EXACT`. -/
def SKIP_PATHS_EXACT : List String := ["/", ""]

/-- `_should_skip_route`: returns the reason to skip the route, or `none` if
it should be registered.  The checks are applied in source order: path
parameters, file extensions, root/empty path, internal-UI prefixes. -/
def shouldSkipRoute (path : String) : Option String :=
  if strContains path braceL || strContains path braceR then some "path parameter"
  else if strContains path '.' then some "file extension in path"
  else if path ∈ SKIP_PATHS_EXACT then some "root/empty path"
  else if SKIP_PATH_PREFIXES.any
      (fun p => strStartsWith path p || strStartsWith (rstripSlash path) p) then
    some "internal/UI route"
  else none

/- ----------------------------------------------------------------------
   Silo-key derivation `_get_user_id` (deploy_xtts_whisper.py:216-225):
   `hashlib.md5(user_id.encode()).hexdigest()[:16]`, except that the
   sentinel value "default" is returned unhashed.  The MD5 algorithm of
   the `hashlib` library is embedded below over Nat with explicit
   reduction modulo 2^32.
---------------------------------------------------------------------- -/

/-- Modulus for 32-bit words. -/
def M32 : Nat := 4294967296

/-- All-ones 32-bit mask, used for bitwise complement. -/
def mask32 : Nat := 4294967295

/-- Rotate a 32-bit word left by `n` bits. -/
def rotl32 (x n : Nat) : Nat := ((x <<< n) ||| (x >>> (32 - n))) % M32

/-- The 64 MD5 additive constants `K[i] = floor(2^32 * abs(sin(i+1)))`. -/
def md5K : List Nat :=
  [0xd76aa478, 0xe8c7b756, 0x242070db, 0xc1bdceee,
   0xf57c0faf, 0x4787c62a, 0xa8304613, 0xfd469501,
   0x698098d8, 0x8b44f7af, 0xffff5bb1, 0x895cd7be,
   0x6b901122, 0xfd987193, 0xa679438e, 0x49b40821,
   0xf61e2562, 0xc040b340, 0x265e5a51, 0xe9b6c7aa,
   0xd62f105d, 0x02441453, 0xd8a1e681, 0xe7d3fbc8,
   0x21e1cde6, 0xc33707d6, 0xf4d50d87, 0x455a14ed,
   0xa9e3e905, 0xfcefa3f8, 0x676f02d9, 0x8d2a4c8a,
   0xfffa3942, 0x8771f681, 0x6d9d6122, 0xfde5380c,
   0xa4beea44, 0x4bdecfa9, 0xf6bb4b60, 0xbebfbc70,
   0x289b7ec6, 0xeaa127fa, 0xd4ef3085, 0x04881d05,
   0xd9d4d039, 0xe6db99e5, 0x1fa27cf8, 0xc4ac5665,
   0xf4292244, 0x432aff97, 0xab9423a7, 0xfc93a039,
   0x655b59c3, 0x8f0ccc92, 0xffeff47d, 0x85845dd1,
   0x6fa87e4f, 0xfe2ce6e0, 0xa3014314, 0x4e0811a1,
   0xf7537e82, 0xbd3af235, 0x2ad7d2bb, 0xeb86d391]

/-- The 64 MD5 per-round left-rotation amounts. -/
def md5S : List Nat :=
  [7, 12, 17, 22, 7, 12, 17, 22, 7, 12, 17, 22, 7, 12, 17, 22,
   5, 9, 14, 20, 5, 9, 14, 20, 5, 9, 14, 20, 5, 9, 14, 20,
   4, 11, 16, 23, 4, 11, 16, 23, 4, 11, 16, 23, 4, 11, 16, 23,
   6, 10, 15, 21, 6, 10, 15, 21, 6, 10, 15, 21, 6, 10, 15, 21]

/-- One MD5 round: given the 16 message words and the running state
`(A, B, C, D)`, apply round `i`. -/
def md5Round (M : List Nat) (st : Nat × Nat × Nat × Nat) (i : Nat) :
    Nat × Nat × Nat × Nat :=
  let (A, B, C, D) := st
  let Fg :=
    if i < 16 then ((B &&& C) ||| ((B ^^^ mask32) &&& D), i)
    else if i < 32 then ((D &&& B) ||| ((D ^^^ mask32) &&& C), (5 * i + 1) % 16)
    else if i < 48 then (B ^^^ C ^^^ D, (3 * i + 5) % 16)
    else (C ^^^ (B ||| (D ^^^ mask32)), (7 * i) % 16)
  let F2 := (Fg.1 + A + md5K.getD i 0 + M.getD Fg.2 0) % M32
  (D, (B + rotl32 F2 (md5S.getD i 0)) % M32, B, C)

/-- Process one 64-byte chunk (given as 16 little-endian words). -/
def md5Chunk (st : Nat × Nat × Nat × Nat) (M : List Nat) :
    Nat × Nat × Nat × Nat :=
  let r := (List.range 64).foldl (md5Round M) st
  ((st.1 + r.1) % M32, (st.2.1 + r.2.1) % M32,
   (st.2.2.1 + r.2.2.1) % M32, (st.2.2.2 + r.2.2.2) % M32)

/-- Little-endian byte rendering of `x` on `k` bytes. -/
def toLEBytes : Nat → Nat → List Nat
  | 0, _ => []
  | k + 1, x => (x % 256) :: toLEBytes k (x / 256)

/-- MD5 padding: append `0x80`, zero-pad to 56 mod 64, then the original
bit length on 8 little-endian bytes. -/
def md5Pad (msg : List Nat) : List Nat :=
  msg ++ [0x80] ++ List.replicate ((120 - (msg.length + 1) % 64) % 64) 0
      ++ toLEBytes 8 ((msg.length * 8) % (2 ^ 64))

/-- Split a byte list into 64-byte chunks. -/
def chunks64 (l : List Nat) : List (List Nat) :=
  if h : l = [] then []
  else l.take 64 :: chunks64 (l.drop 64)
termination_by l.length
decreasing_by
  simp only [List.length_drop]
  cases l with
  | nil => exact absurd rfl h
  | cons a t => simp; omega

/-- Interpret a 64-byte chunk as 16 little-endian 32-bit words. -/
def toWords (chunk : List Nat) : List Nat :=
  (List.range 16).map (fun j =>
    chunk.getD (4 * j) 0 + 256 * chunk.getD (4 * j + 1) 0
      + 65536 * chunk.getD (4 * j + 2) 0 + 16777216 * chunk.getD (4 * j + 3) 0)

/-- MD5 digest of a byte list, as the 16 digest bytes. -/
def md5Bytes (msg : List Nat) : List Nat :=
  let st := (chunks64 (md5Pad msg)).foldl
    (fun st c => md5Chunk st (toWords c))
    (0x67452301, 0xefcdab89, 0x98badcfe, 0x10325476)
  toLEBytes 4 st.1 ++ toLEBytes 4 st.2.1 ++ toLEBytes 4 st.2.2.1 ++ toLEBytes 4 st.2.2.2

/-- Lowercase hexadecimal digit character for `n < 16`. -/
def hexDigitChar (n : Nat) : Char :=
  if n < 10 then Char.ofNat (48 + n) else Char.ofNat (87 + n)

/-- The sixteen lowercase hexadecimal digit characters. -/
def hexAlphabet : List Char := "0123456789abcdef".data

/-- Hexadecimal rendering of a byte list (two digits per byte), as in
`hexdigest()`. -/
def hexChars (bytes : List Nat) : List Char :=
  bytes.flatMap (fun b => [hexDigitChar (b / 16 % 16), hexDigitChar (b % 16)])

/-- UTF-8 bytes of a string, as `str.encode()` produces. -/
def strBytes (s : String) : List Nat := s.toUTF8.toList.map (fun b => b.toNat)

/-- Whether a string is a 16-character lowercase hexadecimal string, i.e.
has the exact shape of a truncated `hexdigest()`. -/
def isHex16 (s : String) : Bool :=
  s.length == 16 && s.data.all (fun c => c ∈ hexAlphabet)

/-- `_get_user_id` applied to the context-variable value: the sentinel
`"default"` is returned unhashed; any other identifier is hashed with MD5
and the hex digest truncated to 16 characters
(`hashlib.md5(user_id.encode()).hexdigest()[:16]`). -/
def getUserId (user_id : String) : String :=
  if user_id = "default" then "default"
  else String.mk ((hexChars (md5Bytes (strBytes user_id))).take 16)

/- ----------------------------------------------------------------------
   JSON values and the JSON-to-multipart encoder `_encode_multipart`
   (deploy_xtts_whisper.py:132-153).
---------------------------------------------------------------------- -/

/-- JSON values of a parsed payload or manifest (object keys assumed
deduplicated, as `json.loads` keeps one binding per key). -/
inductive JVal where
  | null
  | bool (b : Bool)
  | num (n : Int)
  | str (s : String)
  | arr (xs : List JVal)
  | dict (fields : List (String × JVal))

/-- The base64 alphabet in index order. -/
def b64Alphabet : List Char :=
  "ABCDEFGHIJKLMNOPQRSTUVWXYZabcdefghijklmnopqrstuvwxyz0123456789+/".data

/-- Index of a character in the base64 alphabet. -/
def b64Index (c : Char) : Option Nat :=
  b64Alphabet.findIdx? (fun x => x = c)

/-- The decoding loop of `binascii.a2b_base64` in its default non-strict
mode, carrying its running state: `quad_pos` is the position within the
current sextet quad, `leftchar` the bits carried over from the previous
sextet, `pads` the count of consecutive meaningful `=` characters, and
`acc` the bytes emitted so far.  A `=` at `quad_pos ≥ 2` increments
`pads` and, once `quad_pos + pads` reaches 4, finishes decoding
immediately with the bytes so far (anything after is ignored); a `=` at
`quad_pos < 2` is ignored.  A character outside the alphabet is
discarded.  A valid sextet resets `pads`, emits a byte at quad positions
1, 2 and 3 (`(leftchar << 2) | (v >> 4)`, `(leftchar << 4) | (v >> 2)`,
`(leftchar << 6) | v`), and keeps the remaining bits.  If the input ends
at `quad_pos ≠ 0`, `binascii.Error` is raised (`none`). -/
def b64Loop : List Char → Nat → Nat → Nat → List Nat → Option (List Nat)
  | [], quad_pos, _, _, acc =>
    if quad_pos ≠ 0 then none else some acc
  | c :: rest, quad_pos, leftchar, pads, acc =>
    if c = '=' then
      if 2 ≤ quad_pos then
        if 4 ≤ quad_pos + (pads + 1) then some acc
        else b64Loop rest quad_pos leftchar (pads + 1) acc
      else b64Loop rest quad_pos leftchar pads acc
    else
      match b64Index c with
      | none => b64Loop rest quad_pos leftchar pads acc
      | some v =>
        match quad_pos with
        | 0 => b64Loop rest 1 v 0 acc
        | 1 => b64Loop rest 2 (v % 16) 0 (acc ++ [leftchar * 4 + v / 16])
        | 2 => b64Loop rest 3 (v % 4) 0 (acc ++ [leftchar * 16 + v / 4])
        | _ => b64Loop rest 0 0 0 (acc ++ [leftchar * 64 + v])

/-- Model of `base64.b64decode` on a `str` argument: the string is first
encoded as ASCII — any character beyond ASCII raises `ValueError`
(`none`) — and the bytes are then decoded by `binascii.a2b_base64` in
its default non-strict mode, starting from the empty state. -/
def b64decode (s : String) : Option (List Nat) :=
  if s.data.any (fun c => 127 < c.toNat) then none
  else b64Loop s.data 0 0 0 []

/-- One part of an `aiohttp.FormData` form: a file upload, a JSON-typed
field (serialization of the structured value left to the library), or a
plain stringified field. -/
inductive FormPart where
  | file (name : String) (content : List Nat) (filename : String) (contentType : String)
  | jsonField (name : String) (value : JVal)
  | strField (name : String) (value : String)

/-- Python `str(value)` for the scalar payload values the encoder
stringifies. -/
def pyStr : JVal → String
  | JVal.str s => s
  | JVal.num n => toString n
  | JVal.bool true => "True"
  | JVal.bool false => "False"
  | JVal.null => "None"
  | JVal.arr _ => ""
  | JVal.dict _ => ""

/-- Loop body of `_encode_multipart` for one `(key, value)` item:
`None` values are skipped; keys ending in `_base64` are base64-decoded and
attached as a `.wav` file part named by `key.rsplit("_base64", 1)[0]`
(decoding failures, including non-string values, are logged and the field
skipped); dict or list values are attached as JSON-typed fields; all other
values are stringified. -/
def encodeField (key : String) (value : JVal) : List FormPart :=
  match value with
  | JVal.null => []
  | JVal.str s =>
    if strEndsWith key "_base64" then
      match b64decode s with
      | some bytes =>
        [FormPart.file (strDropRight key 7) bytes (strDropRight key 7 ++ ".wav") "audio/wav"]
      | none => []
    else [FormPart.strField key s]
  | JVal.dict fs =>
    if strEndsWith key "_base64" then [] else [FormPart.jsonField key (JVal.dict fs)]
  | JVal.arr xs =>
    if strEndsWith key "_base64" then [] else [FormPart.jsonField key (JVal.arr xs)]
  | v =>
    if strEndsWith key "_base64" then [] else [FormPart.strField key (pyStr v)]

/-- `_encode_multipart`: fold the per-field translation over the payload
items in order. -/
def encodeMultipart (payload : List (String × JVal)) : List FormPart :=
  payload.flatMap (fun kv => encodeField kv.1 kv.2)

/- ----------------------------------------------------------------------
   Upstream response consumption and status remapping:
   `_consume_response` (deploy_xtts_whisper.py:156-185), `_proxy_get`
   (188-213), and the shared try/except of `_proxy_post_multipart`
   (228-267) and `_proxy_post_json` (270-307).
---------------------------------------------------------------------- -/

/-- An upstream HTTP response, reduced to its status and the detail the
gateway would relay (parsed JSON if present, else the decoded body). -/
structure UpstreamResp where
  status : Nat
  detail : String
  deriving DecidableEq, Repr

/-- Kinds of gateway-raised `HTTPException`s, named after the `error`
field of the structured detail the source builds. -/
inductive GatewayErrKind where
  | relayedClientError
  | upstreamError
  | upstreamUnreachable
  | internalProxyError
  deriving DecidableEq, Repr

/-- A gateway `HTTPException`: status code toward the caller, the error
kind, the upstream status recorded in the structured detail (when the
source records one), and the human-readable detail or message. -/
structure GatewayErr where
  statusCode : Nat
  kind : GatewayErrKind
  upstreamStatus : Option Nat
  detail : String
  deriving DecidableEq, Repr

/-- Starlette renders an `HTTPException` as `f"{status_code}: {detail}"`;
this is the `str(e)` the broad `except Exception` handler embeds in its
message. -/
def errToString (e : GatewayErr) : String :=
  toString e.statusCode ++ ": " ++ e.detail

/-- `_consume_response`: statuses below 400 succeed; 4xx raises an
`HTTPException` with the same status and the upstream detail; 5xx raises
an `HTTPException(429)` whose structured detail records the original
upstream status. -/
def consumeResponse (resp : UpstreamResp) : Except GatewayErr UpstreamResp :=
  if resp.status ≥ 400 then
    if resp.status ≥ 500 then
      Except.error
        { statusCode := 429, kind := GatewayErrKind.upstreamError,
          upstreamStatus := some resp.status,
          detail := "Upstream service returned error: " ++ resp.detail }
    else
      Except.error
        { statusCode := resp.status, kind := GatewayErrKind.relayedClientError,
          upstreamStatus := none, detail := resp.detail }
  else Except.ok resp

/-- Outcome of the upstream HTTP call itself: either the connection failed
(`aiohttp.ClientError`, carrying its message) or a response arrived. -/
inductive Upstream where
  | connError (msg : String)
  | resp (r : UpstreamResp)

/-- `_proxy_get`: a connection error becomes `HTTPException(429,
UpstreamUnreachable)`; any other exception — including the
`HTTPException` that `_consume_response` raised for an upstream 4xx or
5xx, since `_proxy_get` has no `except HTTPException: raise` clause —
is caught by the final `except Exception` and replaced by
`HTTPException(429, InternalProxyError)` with `str(e)` in its message. -/
def proxyGet (u : Upstream) : Except GatewayErr UpstreamResp :=
  match u with
  | Upstream.connError msg =>
    Except.error
      { statusCode := 429, kind := GatewayErrKind.upstreamUnreachable,
        upstreamStatus := none,
        detail := "Upstream service at url is starting or unreachable: " ++ msg }
  | Upstream.resp r =>
    match consumeResponse r with
    | Except.ok v => Except.ok v
    | Except.error e =>
      Except.error
        { statusCode := 429, kind := GatewayErrKind.internalProxyError,
          upstreamStatus := none,
          detail := "Unexpected error proxying request: " ++ errToString e }

/-- Shared status handling of `_proxy_post_multipart` and
`_proxy_post_json`: a connection error becomes `HTTPException(429,
UpstreamUnreachable)`; the `except HTTPException: raise` clause re-raises
the exception `_consume_response` produced, so 4xx statuses are relayed
and 5xx statuses arrive as the 429 built there. -/
def proxyPostStatus (u : Upstream) : Except GatewayErr UpstreamResp :=
  match u with
  | Upstream.connError msg =>
    Except.error
      { statusCode := 429, kind := GatewayErrKind.upstreamUnreachable,
        upstreamStatus := none,
        detail := "Upstream service at url is starting or unreachable: " ++ msg }
  | Upstream.resp r => consumeResponse r

/- ----------------------------------------------------------------------
   Route manifest merge, `load_route_manifest` (chute_wrappers.py:251-314),
   and discovered-manifest parsing, `_parse_routes_json` (400-409).
---------------------------------------------------------------------- -/

/-- One route dictionary of the manifest: `path` is required
(`route["path"]`); `method`, `port` and `target_path` are read with
`.get`, hence optional. -/
structure RouteEntry where
  path : String
  method : Option String
  port : Option Nat
  target_path : Option String
  deriving DecidableEq, Repr

/-- The merge key `(r["path"], r.get("method", "GET").upper())`. -/
def routeKey (r : RouteEntry) : String × String :=
  (r.path, strToUpper (r.method.getD "GET"))

/-- Lookup in the `existing` dict built by comprehension over the route
list: the last entry with the key wins, as in a Python dict build. -/
def lookupRoute (key : String × String) : List RouteEntry → Option RouteEntry
  | [] => none
  | r :: rs =>
    match lookupRoute key rs with
    | some x => some x
    | none => if routeKey r = key then some r else none

/-- State threaded through the static-route merge loop: the route list,
the conflict warnings issued (one key per warning), and the
informational duplicate labels collected. -/
structure MergeState where
  routes : List RouteEntry
  conflicts : List (String × String)
  duplicates : List String
  deriving DecidableEq, Repr

/-- Body of the static-route loop of `load_route_manifest`: a static route
whose key is present with differing `port` or `target_path` only logs a
conflict warning and keeps the discovered entry; one present with equal
fields is recorded as a duplicate label `f"{key[1]} {key[0]}"`; an absent
key appends the static route. -/
def mergeStep (st : MergeState) (route : RouteEntry) : MergeState :=
  let key := routeKey route
  match lookupRoute key st.routes with
  | some existing_route =>
    if route.port ≠ existing_route.port ∨ route.target_path ≠ existing_route.target_path then
      { st with conflicts := st.conflicts ++ [key] }
    else
      { st with duplicates := st.duplicates ++ [key.2 ++ " " ++ key.1] }
  | none => { st with routes := st.routes ++ [route] }

/-- The static-route merge phase of `load_route_manifest`: fold the loop
body over the static routes, starting from the discovered list. -/
def mergeStaticRoutes (routes static_routes : List RouteEntry) : MergeState :=
  static_routes.foldl mergeStep
    { routes := routes, conflicts := [], duplicates := [] }

/-- Whether a static route is an identical duplicate of the entry the
discovered lookup finds for its key. -/
def isIdenticalDup (r : RouteEntry) (routes : List RouteEntry) : Bool :=
  match lookupRoute (routeKey r) routes with
  | some ex => r.port == ex.port && r.target_path == ex.target_path
  | none => false

/-- Lookup of an object field, `data.get(key)`. -/
def lookupField (key : String) : List (String × JVal) → Option JVal
  | [] => none
  | (k, v) :: rest => if k = key then some v else lookupField key rest

/-- Whether an `Except` result is a success. -/
def resultOk {ε α : Type} : Except ε α → Bool
  | Except.ok _ => true
  | Except.error _ => false

/-- `_parse_routes_json` applied to the result of `json.loads`: `none`
models a `json.JSONDecodeError` (re-raised as the manifest parse error);
a dict is replaced by `data.get("routes", [])`; anything that is then not
a list raises the manifest parse error. -/
def parseRoutesJson (raw : Option JVal) : Except String (List JVal) :=
  match raw with
  | none => Except.error "Invalid route manifest JSON"
  | some data0 =>
    let data :=
      match data0 with
      | JVal.dict fields => (lookupField "routes" fields).getD (JVal.arr [])
      | other => other
    match data with
    | JVal.arr xs => Except.ok xs
    | _ => Except.error "Route manifest must be a list or contain a routes list"

/-- Modelled from the claim's words: the discovered input is malformed
when it is not valid JSON, or parses to a value that is neither a list
nor an object containing a `routes` list. -/
def manifestMalformedClaim (raw : Option JVal) : Bool :=
  match raw with
  | none => true
  | some (JVal.arr _) => false
  | some (JVal.dict fields) =>
    match lookupField "routes" fields with
    | some (JVal.arr _) => false
    | _ => true
  | some _ => true

/-- The inputs `_parse_routes_json` actually rejects: invalid JSON, a
value that is neither a list nor an object, or an object whose `routes`
key is present but holds a non-list.  An object without a `routes` key is
accepted and yields the empty route list. -/
def manifestMalformed (raw : Option JVal) : Bool :=
  match raw with
  | none => true
  | some (JVal.arr _) => false
  | some (JVal.dict fields) =>
    match lookupField "routes" fields with
    | none => false
    | some (JVal.arr _) => false
    | some _ => true
  | some _ => true

/- ----------------------------------------------------------------------
   Readiness wait `_wait_for_port` (chute_wrappers.py:443-456).  Time is
   a Nat counter; `connectOk t` tells whether `asyncio.open_connection`
   succeeds at time `t`; each failed attempt sleeps one time unit.
---------------------------------------------------------------------- -/

/-- The retry loop of `_wait_for_port`: attempt a connection at `now`; on
success return; on `OSError`, raise the timeout error naming the endpoint
once the deadline has been reached, else sleep 1 and retry. -/
def waitLoop (port : Nat) (host : String) (connectOk : Nat → Bool)
    (deadline now : Nat) : Except String Nat :=
  if connectOk now then Except.ok now
  else if deadline ≤ now then
    Except.error ("Timed out waiting for " ++ host ++ ":" ++ toString port)
  else waitLoop port host connectOk deadline (now + 1)
termination_by deadline - now
decreasing_by omega

/-- `_wait_for_port`: the deadline is computed once at call start as
`loop.time() + timeout`, then the retry loop runs. -/
def waitForPort (port : Nat) (host : String) (timeout : Nat)
    (connectOk : Nat → Bool) (start : Nat) : Except String Nat :=
  waitLoop port host connectOk (start + timeout) start

/- ----------------------------------------------------------------------
   Theorems.
---------------------------------------------------------------------- -/

/-- C2: for every inbound request, the middleware sets the per-request
caller-identifier context variable at request entry and resets it to its
prior value at request exit on every code path — normal return and
raising handler alike — so after any single request completes the context
variable holds the same value it held before the request began; moreover
the downstream handler runs with the per-request identifier in place and
its outcome is passed through unchanged. -/
theorem addUserIdToContext_resets (ctx0 path : String)
    (q hdr : Option String)
    (callNext : String → String → Except String String × String) :
    (addUserIdToContext ctx0 path q hdr callNext).2 = ctx0 ∧
    (addUserIdToContext ctx0 path q hdr callNext).1 =
      (callNext (if path ≠ "/" ∧ strEndsWith path "/" = true then rstripSlash path else path)
        (extractUserId q hdr)).1 := by
  unfold addUserIdToContext
  rcases h : callNext
      (if path ≠ "/" ∧ strEndsWith path "/" = true then rstripSlash path else path)
      (extractUserId q hdr) with ⟨res, c⟩
  cases res <;> simp [h]

/-- C5 counterexample: a `speaker_name` value that begins with the path
separator `/` — one the claim says must be left untouched — is prefixed
anyway: the code applies the bare-name guard only to `speaker_wav` and
prefixes `speaker_name` unconditionally whenever it is present. -/
theorem siloPayload_claim_cex :
    strStartsWith "/abs" "/" = true ∧
    (siloPayload "k"
        { speaker_name := some "/abs", speaker_wav := none, other := [] }).speaker_name
      = some "k_/abs" := by
  exact ⟨by decide, rfl⟩

/-- C5 amended: for every payload and silo key, `speaker_wav`, when
present, is prefixed with `key + "_"` exactly when its value is a bare
resource name — it does not begin with `/` and does not contain `|` — and
is left untouched otherwise; `speaker_name`, when present, is prefixed
unconditionally; fields absent from the payload are never added, and all
other payload fields are untouched. -/
theorem siloPayload_spec (key : String) (p : Payload) :
    (siloPayload key p).speaker_name = p.speaker_name.map (fun v => key ++ "_" ++ v) ∧
    (siloPayload key p).speaker_wav = p.speaker_wav.map
      (fun v => if strStartsWith v "/" || strContains v '|' then v else key ++ "_" ++ v) ∧
    (siloPayload key p).other = p.other := by
  rcases p with ⟨sn, sw, o⟩
  cases sn <;> rcases sw with _ | v <;>
    simp [siloPayload] <;>
    cases hs : strStartsWith v "/" <;> cases hc : strContains v '|' <;>
    simp [hs, hc]

/-- C7: the registrar's exclusion filter skips exactly those paths that
contain a curly brace, contain a dot, are empty or exactly the root `/`,
or start with one of the fixed internal-UI prefixes, applying the rules
in that priority order with first match winning (witnessed by the
distinct skip reasons returned) and reporting a skip reason rather than
an error; in particular the paths `/a/\x7bid\x7d`, `/favicon.ico`, `/`
and `/gradio_api/foo` are excluded while `/inference` and `/speak` are
registered. -/
theorem shouldSkipRoute_spec (path : String) :
    ((shouldSkipRoute path).isSome =
      (strContains path braceL || strContains path braceR || strContains path '.'
        || decide (path ∈ SKIP_PATHS_EXACT)
        || SKIP_PATH_PREFIXES.any
            (fun p => strStartsWith path p || strStartsWith (rstripSlash path) p))) ∧
    shouldSkipRoute "/a/\x7bid\x7d" = some "path parameter" ∧
    shouldSkipRoute "/favicon.ico" = some "file extension in path" ∧
    shouldSkipRoute "/" = some "root/empty path" ∧
    shouldSkipRoute "" = some "root/empty path" ∧
    shouldSkipRoute "/gradio_api/foo" = some "internal/UI route" ∧
    shouldSkipRoute "/inference" = none ∧
    shouldSkipRoute "/speak" = none := by
  refine ⟨?_, by decide, by decide, by decide, by decide, by decide, by decide, by decide⟩
  unfold shouldSkipRoute
  split_ifs with h1 h2 h3 h4 <;> simp_all

/-- C1, evaluated at the failing input: an upstream 404 flowing through
`_proxy_get` is not relayed as a 404 — `_proxy_get` has no
`except HTTPException: raise` clause, so its final `except Exception`
catches the `HTTPException(404)` that `_consume_response` raised and
replaces it with a 429 `InternalProxyError`, burying the relayed detail
inside a message string — whereas the two POST proxies, which do re-raise
`HTTPException`, relay the same upstream 404 verbatim as the claim and
the spec describe. -/
theorem proxyGet_404_remapped :
    proxyGet (Upstream.resp { status := 404, detail := "Not Found" }) =
      Except.error
        { statusCode := 429, kind := GatewayErrKind.internalProxyError,
          upstreamStatus := none,
          detail := "Unexpected error proxying request: 404: Not Found" } ∧
    proxyPostStatus (Upstream.resp { status := 404, detail := "Not Found" }) =
      Except.error
        { statusCode := 404, kind := GatewayErrKind.relayedClientError,
          upstreamStatus := none, detail := "Not Found" } := by
  exact ⟨rfl, rfl⟩

/-- Helper for C9: if every connection attempt fails, the retry loop
terminates with the timeout error once the deadline is reached. -/
theorem waitLoop_allFail (port : Nat) (host : String) (connectOk : Nat → Bool)
    (hfail : ∀ t, connectOk t = false) :
    ∀ fuel deadline now, deadline - now ≤ fuel →
      waitLoop port host connectOk deadline now =
        Except.error ("Timed out waiting for " ++ host ++ ":" ++ toString port) := by
  intro fuel
  induction fuel with
  | zero =>
    intro deadline now hle
    unfold waitLoop
    rw [hfail now]
    simp only [Bool.false_eq_true, if_false]
    rw [if_pos (by omega)]
  | succ k ih =>
    intro deadline now hle
    unfold waitLoop
    rw [hfail now]
    simp only [Bool.false_eq_true, if_false]
    by_cases hd : deadline ≤ now
    · rw [if_pos hd]
    · rw [if_neg hd]
      exact ih deadline (now + 1) (by omega)

/-- C9: for an endpoint on which every connection attempt fails, the
readiness wait with timeout `t` terminates rather than looping forever —
the loop retries with a fixed one-unit sleep only while the deadline
computed at call start (`start + timeout`) has not passed, and once it is
exceeded the next failed attempt raises the timeout error naming the
unreachable host and port. -/
theorem waitForPort_timeout (port : Nat) (host : String) (timeout start : Nat)
    (connectOk : Nat → Bool) (hfail : ∀ t, connectOk t = false) :
    waitForPort port host timeout connectOk start =
      Except.error ("Timed out waiting for " ++ host ++ ":" ++ toString port) :=
  waitLoop_allFail port host connectOk hfail timeout (start + timeout) start (by omega)

/-- C9 witness: probing port 9999 with a 2-unit timeout and no listener
fails with the timeout error naming the endpoint. -/
theorem waitForPort_timeout_witness :
    ((fun _ : Nat => false) 0 = false) ∧
    waitForPort 9999 "127.0.0.1" 2 (fun _ => false) 0 =
      Except.error ("Timed out waiting for " ++ "127.0.0.1" ++ ":" ++ toString 9999) :=
  ⟨rfl, waitForPort_timeout 9999 "127.0.0.1" 2 0 (fun _ => false) (fun _ => rfl)⟩

/-- C3: when a static entry's `(path, uppercased method)` key is already
present with a different `port` or `target_path`, the merge keeps the
route list unchanged — the discovered entry is retained, the static entry
neither appended nor substituted — records exactly one conflict warning
for that static entry, leaves the duplicate log untouched, and continues
(the merge step is a total function folded over the remaining entries). -/
theorem mergeStep_conflict (st : MergeState) (route ex : RouteEntry)
    (h1 : lookupRoute (routeKey route) st.routes = some ex)
    (h2 : route.port ≠ ex.port ∨ route.target_path ≠ ex.target_path) :
    (mergeStep st route).routes = st.routes ∧
    (mergeStep st route).conflicts = st.conflicts ++ [routeKey route] ∧
    (mergeStep st route).duplicates = st.duplicates := by
  simp only [mergeStep]
  rw [h1]
  dsimp only
  rw [if_pos h2]
  exact ⟨rfl, rfl, rfl⟩

/-- C3 witness: discovered `GET /x → port 1` against static
`GET /x → port 2` keeps port 1 and records exactly one conflict. -/
theorem mergeStep_conflict_witness :
    (lookupRoute (routeKey ⟨"/x", some "GET", some 2, none⟩)
        [⟨"/x", some "GET", some 1, none⟩] = some ⟨"/x", some "GET", some 1, none⟩) ∧
    ((some 2 : Option Nat) ≠ some 1 ∨ (none : Option String) ≠ none) ∧
    (mergeStep { routes := [⟨"/x", some "GET", some 1, none⟩], conflicts := [], duplicates := [] }
        ⟨"/x", some "GET", some 2, none⟩).routes = [⟨"/x", some "GET", some 1, none⟩] ∧
    (mergeStep { routes := [⟨"/x", some "GET", some 1, none⟩], conflicts := [], duplicates := [] }
        ⟨"/x", some "GET", some 2, none⟩).conflicts = [("/x", "GET")] ∧
    (mergeStep { routes := [⟨"/x", some "GET", some 1, none⟩], conflicts := [], duplicates := [] }
        ⟨"/x", some "GET", some 2, none⟩).duplicates = [] := by
  refine ⟨by decide, Or.inl (by decide), ?_⟩
  have h := mergeStep_conflict
    { routes := [⟨"/x", some "GET", some 1, none⟩], conflicts := [], duplicates := [] }
    ⟨"/x", some "GET", some 2, none⟩ ⟨"/x", some "GET", some 1, none⟩
    (by decide) (Or.inl (by decide))
  exact ⟨h.1, by rw [h.2.1]; rfl, h.2.2⟩

/-- Helper for C6: folding the merge step over static routes that are all
identical duplicates of entries already present only extends the
duplicate labels. -/
theorem mergeFold_dups (static_routes : List RouteEntry) :
    ∀ st : MergeState, (∀ r ∈ static_routes, isIdenticalDup r st.routes = true) →
      static_routes.foldl mergeStep st =
        { routes := st.routes, conflicts := st.conflicts,
          duplicates := st.duplicates
            ++ static_routes.map (fun r => (routeKey r).2 ++ " " ++ (routeKey r).1) } := by
  induction static_routes with
  | nil => intro st h; simp
  | cons r rs ih =>
    intro st h
    have hr := h r (List.mem_cons_self r rs)
    unfold isIdenticalDup at hr
    rcases hl : lookupRoute (routeKey r) st.routes with _ | ex
    · rw [hl] at hr; simp at hr
    · rw [hl] at hr
      simp only [beq_iff_eq, Bool.and_eq_true, decide_eq_true_eq] at hr
      have hstep : mergeStep st r =
          { st with duplicates :=
              st.duplicates ++ [(routeKey r).2 ++ " " ++ (routeKey r).1] } := by
        simp only [mergeStep]
        rw [hl]
        dsimp only
        rw [if_neg (by simp [hr.1, hr.2])]
      rw [List.foldl_cons, hstep]
      rw [ih _ (by intro x hx; exact h x (List.mem_cons_of_mem r hx))]
      simp

/-- C6: merging is idempotent — for every manifest, merging a static list
each of whose entries already appears with an identical key, `port` and
`target_path` returns the route list unchanged, emits no conflict
warning, and records the identical duplicates only as informational skip
labels. -/
theorem mergeIdempotent (routes static_routes : List RouteEntry)
    (h : ∀ r ∈ static_routes, isIdenticalDup r routes = true) :
    mergeStaticRoutes routes static_routes =
      { routes := routes, conflicts := [],
        duplicates := static_routes.map (fun r => (routeKey r).2 ++ " " ++ (routeKey r).1) } := by
  unfold mergeStaticRoutes
  rw [mergeFold_dups static_routes _ (by simpa using h)]
  simp

/-- C6 witness: re-merging the manifest's own entry produces no
duplicate route, no conflict, and one informational skip label. -/
theorem mergeIdempotent_witness :
    (∀ r ∈ [(⟨"/x", some "GET", some 1, none⟩ : RouteEntry)],
      isIdenticalDup r [⟨"/x", some "GET", some 1, none⟩] = true) ∧
    mergeStaticRoutes [⟨"/x", some "GET", some 1, none⟩] [⟨"/x", some "GET", some 1, none⟩] =
      { routes := [⟨"/x", some "GET", some 1, none⟩], conflicts := [],
        duplicates := ["GET /x"] } := by
  refine ⟨by decide, ?_⟩
  have h := mergeIdempotent [⟨"/x", some "GET", some 1, none⟩]
    [⟨"/x", some "GET", some 1, none⟩] (by decide)
  rw [h]
  rfl

/-- C8 counterexample: an object with no `routes` key — a value the claim
says is malformed, being neither a list nor an object containing a
`routes` list — is accepted by `_parse_routes_json` and yields the empty
route table instead of a parse error, because `data.get("routes", [])`
substitutes the empty list. -/
theorem parseRoutesJson_routeless_object :
    manifestMalformedClaim (some (JVal.dict [])) = true ∧
    parseRoutesJson (some (JVal.dict [])) = Except.ok [] := by
  exact ⟨rfl, rfl⟩

/-- C8 amended: manifest loading fails with the parse error exactly when
the input is not valid JSON, parses to a value that is neither a list nor
an object, or parses to an object whose `routes` key is present but holds
a non-list; an object without a `routes` key is accepted as the empty
route table. -/
theorem parseRoutesJson_rejects_iff (raw : Option JVal) :
    resultOk (parseRoutesJson raw) = !(manifestMalformed raw) := by
  rcases raw with _ | d
  · rfl
  · cases d with
    | null => rfl
    | bool b => rfl
    | num n => rfl
    | str s => rfl
    | arr xs => rfl
    | dict fields =>
      simp only [parseRoutesJson, manifestMalformed]
      rcases hl : lookupField "routes" fields with _ | v
      · simp [hl, resultOk]
      · cases v <;> simp [hl, resultOk]

/-- Little-endian byte rendering has the requested length. -/
theorem toLEBytes_length (k : Nat) : ∀ x, (toLEBytes k x).length = k := by
  induction k with
  | zero => intro x; rfl
  | succ n ih => intro x; simp [toLEBytes, ih]

/-- An MD5 digest is 16 bytes. -/
theorem md5Bytes_length (msg : List Nat) : (md5Bytes msg).length = 16 := by
  unfold md5Bytes
  simp [toLEBytes_length]

/-- Hex rendering yields two characters per byte. -/
theorem hexChars_length (bs : List Nat) : (hexChars bs).length = 2 * bs.length := by
  induction bs with
  | nil => rfl
  | cons b t ih => simp [hexChars] at ih ⊢; omega

/-- Hex digit characters of in-range values are in the hex alphabet. -/
theorem hexDigitChar_mem : ∀ n, n < 16 → hexDigitChar n ∈ hexAlphabet := by decide

/-- Every character of a hex rendering is a lowercase hex digit. -/
theorem hexChars_mem (bs : List Nat) : ∀ c ∈ hexChars bs, c ∈ hexAlphabet := by
  intro c hc
  unfold hexChars at hc
  rw [List.mem_flatMap] at hc
  obtain ⟨b, _, hc2⟩ := hc
  simp only [List.mem_cons, List.not_mem_nil, or_false] at hc2
  rcases hc2 with h | h <;> subst h <;>
    exact hexDigitChar_mem _ (Nat.mod_lt _ (by norm_num))

/-- C4 amended: silo-key derivation is deterministic (a pure function of
the identifier); every key derived from a present identifier other than
the literal sentinel `"default"` — which the derivation cannot
distinguish from absence and returns unhashed — is a fixed-length
16-character lowercase-hexadecimal digest, and it differs from the raw
identifier whenever the identifier is not itself a 16-character
lowercase-hex string; the sentinel yields the literal `"default"`
unhashed. -/
theorem getUserId_spec (uid : String) (h : uid ≠ "default") :
    getUserId uid = getUserId uid ∧
    (getUserId uid).length = 16 ∧
    isHex16 (getUserId uid) = true ∧
    (isHex16 uid = false → getUserId uid ≠ uid) ∧
    getUserId "default" = "default" := by
  have hval : getUserId uid = String.mk ((hexChars (md5Bytes (strBytes uid))).take 16) := by
    unfold getUserId
    rw [if_neg h]
  have hlen : (getUserId uid).length = 16 := by
    rw [hval]
    show ((hexChars (md5Bytes (strBytes uid))).take 16).length = 16
    rw [List.length_take, hexChars_length, md5Bytes_length]
    omega
  have hhex : isHex16 (getUserId uid) = true := by
    simp only [isHex16, Bool.and_eq_true, beq_iff_eq]
    refine ⟨hlen, ?_⟩
    rw [hval]
    show ((hexChars (md5Bytes (strBytes uid))).take 16).all _ = true
    rw [List.all_eq_true]
    intro c hc
    simp only [decide_eq_true_eq]
    exact hexChars_mem _ c (List.take_subset _ _ hc)
  refine ⟨rfl, hlen, hhex, ?_, rfl⟩
  intro hfalse heq
  rw [heq] at hhex
  rw [hhex] at hfalse
  exact Bool.noConfusion hfalse

/-- C4 counterexample: a caller-supplied identifier equal to the literal
string `"default"` — a present identifier, flowing through the header
extraction — is returned raw and unhashed: the derived key is the
7-character raw identifier itself, not a 16-character hex digest. -/
theorem getUserId_default_raw :
    extractUserId none (some "default") = "default" ∧
    getUserId "default" = "default" ∧
    ("default" : String).length ≠ 16 ∧
    isHex16 "default" = false := by
  refine ⟨rfl, rfl, by decide, by decide⟩

/-- C4 witness: the identifier `"user-42"` is hashed and its key differs
from the raw identifier. -/
theorem getUserId_spec_witness :
    ("user-42" : String) ≠ "default" ∧ isHex16 "user-42" = false ∧
    getUserId "user-42" ≠ "user-42" := by
  refine ⟨by decide, by decide, ?_⟩
  exact ((getUserId_spec "user-42" (by decide)).2.2.2.1) (by decide)

/-- C10 counterexample: a non-null `_base64` field whose value fails
base64 decoding (here the single character `"A"`, an invalid length) is
silently dropped — nothing is attached for it — refuting the claim that
every non-None value is attached to the form. -/
theorem encodeMultipart_decode_failure_dropped :
    (JVal.str "A" ≠ JVal.null) ∧
    b64decode "A" = none ∧
    strEndsWith "wav_file_base64" "_base64" = true ∧
    encodeMultipart [("wav_file_base64", JVal.str "A")] = [] := by
  refine ⟨fun hcontra => JVal.noConfusion hcontra, rfl, by decide, rfl⟩

/-- C10 amended: the encoder is a per-field translation (homomorphic over
payload concatenation) that omits every null field; a `_base64`-suffixed
string field is attached as a decoded `.wav` file part named by stripping
the suffix when decoding succeeds and dropped when it fails (a `_base64`
field with a non-string value is likewise dropped); dict and list values
are attached as JSON-typed parts; and every other non-null value is
attached as its string rendering. -/
theorem encodeMultipart_spec :
    (∀ xs ys, encodeMultipart (xs ++ ys) = encodeMultipart xs ++ encodeMultipart ys) ∧
    (∀ key, encodeMultipart [(key, JVal.null)] = []) ∧
    (∀ key s, strEndsWith key "_base64" = true →
      encodeMultipart [(key, JVal.str s)] =
        (match b64decode s with
         | some bytes =>
           [FormPart.file (strDropRight key 7) bytes (strDropRight key 7 ++ ".wav") "audio/wav"]
         | none => [])) ∧
    (∀ key n, strEndsWith key "_base64" = true →
      encodeMultipart [(key, JVal.num n)] = []) ∧
    (∀ key s, strEndsWith key "_base64" = false →
      encodeMultipart [(key, JVal.str s)] = [FormPart.strField key s]) ∧
    (∀ key fields, strEndsWith key "_base64" = false →
      encodeMultipart [(key, JVal.dict fields)] = [FormPart.jsonField key (JVal.dict fields)]) ∧
    (∀ key xs, strEndsWith key "_base64" = false →
      encodeMultipart [(key, JVal.arr xs)] = [FormPart.jsonField key (JVal.arr xs)]) ∧
    (∀ key n, strEndsWith key "_base64" = false →
      encodeMultipart [(key, JVal.num n)] = [FormPart.strField key (toString n)]) := by
  refine ⟨?_, ?_, ?_, ?_, ?_, ?_, ?_, ?_⟩
  · intro xs ys
    simp [encodeMultipart]
  · intro key
    rfl
  · intro key s hk
    simp [encodeMultipart, encodeField, hk]
  · intro key n hk
    simp [encodeMultipart, encodeField, hk]
  · intro key s hk
    simp [encodeMultipart, encodeField, hk]
  · intro key fields hk
    simp [encodeMultipart, encodeField, hk]
  · intro key xs hk
    simp [encodeMultipart, encodeField, hk]
  · intro key n hk
    simp [encodeMultipart, encodeField, hk, pyStr]

/-- C10 witness: a valid base64 field is attached as the decoded file
part — including one whose value only decodes under the non-strict
padding rules, `"QQ=Z="`, which yields two bytes — and a plain string
field is attached as a stringified part. -/
theorem encodeMultipart_spec_witness :
    strEndsWith "wav_file_base64" "_base64" = true ∧
    encodeMultipart [("wav_file_base64", JVal.str "QQ==")] =
      [FormPart.file "wav_file" [65] "wav_file.wav" "audio/wav"] ∧
    encodeMultipart [("audio_base64", JVal.str "QQ=Z=")] =
      [FormPart.file "audio" [65, 6] "audio.wav" "audio/wav"] ∧
    strEndsWith "text" "_base64" = false ∧
    encodeMultipart [("text", JVal.str "hello")] = [FormPart.strField "text" "hello"] := by
  refine ⟨by decide, ?_, ?_, by decide, ?_⟩
  · exact (encodeMultipart_spec.2.2.1 "wav_file_base64" "QQ==" (by decide)).trans (by rfl)
  · exact (encodeMultipart_spec.2.2.1 "audio_base64" "QQ=Z=" (by decide)).trans (by rfl)
  · exact encodeMultipart_spec.2.2.2.2.1 "text" "hello" (by decide)
